import Mathlib

set_option linter.unusedVariables false

namespace CCDCOM

/-- A wide-character string, modelled as the sequence of its 16-bit code units. -/
abbrev WStr := List Nat

/-- Modelled from the spec: the process-wide singleton Session state
(spec, Data Model): values Uninitialized, Initializing, Ready, Failed, Released.
The implementation behind `src/instamatic/camera/CCDCOM.h` is not in the
repository snapshot; only the 34-line interface header is, so the session
lifecycle is taken from the spec's words. -/
inductive SessionState where
  | Uninitialized
  | Initializing
  | Ready
  | Failed
  | Released
  deriving DecidableEq, Repr

/-- Modelled from the spec: the vendor camera driver, the external collaborator
behind the dynamic library (spec, Purpose and Scope; only its interface
behaviour is specified).  The fields record the deterministic responses of one
driver instance: whether connecting succeeds, the sensor geometry and identity
metadata, the status the scripting runtime returns for a given command, whether
an exposure completes, the raw detector counts produced for a given
ROI/binning/exposure, and the driver-side gain/offset conversion applied for
the floating-point variant.  Pixel samples are carried as integers; the
floating-point representation of the converted values is not modelled. -/
structure Driver where
  magic : Int
  connectOk : Bool
  infoAvailable : Bool
  name : WStr
  count : Int
  sensorWidth : Int
  sensorHeight : Int
  scriptResult : WStr → Int
  captureOk : Bool
  rawFrame : Int → Int → Int → Int → Int → Rat → List Int
  convert : Int → Int

/-- Modelled from the spec: the observable process-wide state of the interface.
`liveBuffers` is the multiset of outstanding callee-allocated buffer handles
(the Buffer Release Gate's ledger), `nextHandle` a fresh-handle counter,
`driverCalls` counts interactions with the vendor driver (the test double's
side-effect log from spec, Testable Properties), `displayRequests` counts
render requests signalled to the host application, and `scriptLog` records the
command strings forwarded to the vendor scripting runtime, most recent first. -/
structure CState where
  session : SessionState
  nextHandle : Nat
  liveBuffers : List Nat
  driverCalls : Nat
  displayRequests : Nat
  scriptLog : List WStr
  deriving DecidableEq, Repr

/-- Status code returned on success.  The header's example documents
`result = 1 on successful return` for `initCCDCOM`. -/
def STATUS_OK : Int := 1

/-- Modelled from the spec: the distinguished failure status (a nonzero/false
result is the failure signal; the model uses 0 as the failure code). -/
def STATUS_FAIL : Int := 0

/-- Modelled from the spec: `openSession` (`initCCDCOM` in the header).
Validates the caller-supplied version token against the driver's out-of-band
magic constant; on match, opens the driver connection.  Returns success only
if both the version check and the driver connection succeed, transitioning
Session from Uninitialized to Ready.  Calling it while already Ready is an
idempotent success (the spec's recommended policy).  A version mismatch is a
local precondition failure with no driver interaction; a driver connection
failure moves the session to Failed. -/
def initCCDCOM (d : Driver) (s : CState) (nNumber : Int) : Int × CState :=
  if s.session = SessionState.Ready then (STATUS_OK, s)
  else if nNumber ≠ d.magic then (STATUS_FAIL, s)
  else if d.connectOk then
    (STATUS_OK, { s with session := SessionState.Ready, driverCalls := s.driverCalls + 1 })
  else
    (STATUS_FAIL, { s with session := SessionState.Failed, driverCalls := s.driverCalls + 1 })

/-- Modelled from the spec: `closeSession` (`releaseCCDCOM`): releases the
driver connection and returns Session to Released; safe to call even if no
session was opened. -/
def releaseCCDCOM (s : CState) : CState :=
  { s with session := SessionState.Released }

/-- Modelled from the spec: `isMetadataAvailable` (`isCameraInfoAvailable`):
pure query, true if the connected camera model reports identity/size
information; requires Session = Ready, otherwise fails (false) without side
effects. -/
def isCameraInfoAvailable (d : Driver) (s : CState) : Bool × CState :=
  if s.session = SessionState.Ready then (d.infoAvailable, s) else (false, s)

/-- Modelled from the spec: `getCameraName` (`cameraName`): writes the
null-terminated wide-character name into caller storage of the given capacity;
false (here: `none`) if the session is not Ready, metadata is unavailable, or
the capacity cannot hold the name plus its terminator. -/
def cameraName (d : Driver) (s : CState) (wcNameSize : Int) : Option WStr × CState :=
  if s.session = SessionState.Ready ∧ d.infoAvailable = true ∧
      (d.name.length : Int) + 1 ≤ wcNameSize then
    (some d.name, s)
  else (none, s)

/-- Modelled from the spec: `getCameraDimensions` (`cameraDimensions`): returns
the native full-frame sensor width/height in pixels; false (here: `none`) if
unavailable or the session is not Ready.  A read-only query with no side
effects. -/
def cameraDimensions (d : Driver) (s : CState) : Option (Int × Int) × CState :=
  if s.session = SessionState.Ready ∧ d.infoAvailable = true then
    (some (d.sensorWidth, d.sensorHeight), s)
  else (none, s)

/-- Modelled from the spec: `getCameraCount` (`cameraCount`): the number of
cameras the driver reports; requires Session = Ready (a failed query,
`none`, is distinguished from a valid count of 0). -/
def cameraCount (d : Driver) (s : CState) : Option Int × CState :=
  if s.session = SessionState.Ready then (some d.count, s) else (none, s)

/-- Modelled from the spec: `executeScript` (`execScript`): forwards the
wide-character command string verbatim to the vendor runtime and returns its
status code unchanged; no parsing, escaping, or validation.  Requires
Session = Ready.  The forwarded string is recorded verbatim in `scriptLog`. -/
def execScript (d : Driver) (s : CState) (script : WStr) : Int × CState :=
  if s.session = SessionState.Ready then
    (d.scriptResult script,
      { s with driverCalls := s.driverCalls + 1, scriptLog := script :: s.scriptLog })
  else (STATUS_FAIL, s)

/-- Modelled from the spec: local validation of an acquisition request:
the ROI (top, left, bottom, right) satisfies top < bottom and left < right and
lies within the sensor, the binning factor is positive, and the exposure is
positive. -/
def validRequest (d : Driver) (area_t area_l area_b area_r nBinning : Int)
    (fExposure : Rat) : Bool :=
  decide (0 ≤ area_t) && decide (area_t < area_b) &&
  decide (0 ≤ area_l) && decide (area_l < area_r) &&
  decide (area_b ≤ d.sensorHeight) && decide (area_r ≤ d.sensorWidth) &&
  decide (0 < nBinning) && decide (0 < fExposure)

/-- The outputs of the caller-owned (integer) acquisition variant: the pixel
data written into the caller's buffer and the post-binning output
width/height. -/
structure IntAcqOut where
  data : List Int
  width : Int
  height : Int
  deriving DecidableEq, Repr

/-- The outputs of the callee-allocated (floating-point) acquisition variant:
the handle of the freshly allocated buffer, the converted pixel data, and the
post-binning output width/height. -/
structure FloatAcqOut where
  handle : Nat
  data : List Int
  width : Int
  height : Int
  deriving DecidableEq, Repr

/-- Modelled from the spec: `acquireIntoBuffer` (`acquireImageNewInt`):
validates the request; if the session is Ready and the request is valid,
programs the driver and performs one synchronous exposure, producing raw
32-bit integer detector counts and output dimensions
((right-left)/binning, (bottom-top)/binning), integer division.  Returns
failure without writing outputs if the session is not Ready, validation fails,
or the driver rejects the request or times out.  The display flag only adds a
render request for the host application; it does not enter the captured
data. -/
def acquireImageNewInt (d : Driver) (s : CState)
    (area_t area_l area_b area_r nBinning : Int) (fExposure : Rat)
    (bShowInDM : Bool) : Int × Option IntAcqOut × CState :=
  if s.session ≠ SessionState.Ready then (STATUS_FAIL, none, s)
  else if validRequest d area_t area_l area_b area_r nBinning fExposure then
    if d.captureOk then
      let w := (area_r - area_l) / nBinning
      let h := (area_b - area_t) / nBinning
      let data := d.rawFrame area_t area_l area_b area_r nBinning fExposure
      let s1 := { s with driverCalls := s.driverCalls + 1 }
      let s2 := if bShowInDM then { s1 with displayRequests := s1.displayRequests + 1 } else s1
      (STATUS_OK, some ⟨data, w, h⟩, s2)
    else (STATUS_FAIL, none, { s with driverCalls := s.driverCalls + 1 })
  else (STATUS_FAIL, none, s)

/-- Modelled from the spec: `acquireAllocated` (`acquireImageNewFloat`):
identical validation and capture semantics to the integer variant, but
allocates a fresh buffer, writes the driver-converted intensity values into
it, and transfers ownership to the caller through the returned handle.  On
failure no buffer is allocated and the output parameters are not written
(`none`). -/
def acquireImageNewFloat (d : Driver) (s : CState)
    (area_t area_l area_b area_r nBinning : Int) (fExposure : Rat)
    (bShowInDM : Bool) : Int × Option FloatAcqOut × CState :=
  if s.session ≠ SessionState.Ready then (STATUS_FAIL, none, s)
  else if validRequest d area_t area_l area_b area_r nBinning fExposure then
    if d.captureOk then
      let w := (area_r - area_l) / nBinning
      let h := (area_b - area_t) / nBinning
      let data := (d.rawFrame area_t area_l area_b area_r nBinning fExposure).map d.convert
      let hd := s.nextHandle
      let s1 := { s with driverCalls := s.driverCalls + 1, nextHandle := hd + 1, liveBuffers := hd :: s.liveBuffers }
      let s2 := if bShowInDM then { s1 with displayRequests := s1.displayRequests + 1 } else s1
      (STATUS_OK, some ⟨hd, data, w, h⟩, s2)
    else (STATUS_FAIL, none, { s with driverCalls := s.driverCalls + 1 })
  else (STATUS_FAIL, none, s)

/-- Modelled from the spec: `releaseBuffer` (`CCDCOM2_release`): deallocates a
buffer previously produced by the callee-allocated acquisition variant,
removing its handle from the ledger of outstanding buffers. -/
def CCDCOM2_release (s : CState) (pdata : Nat) : CState :=
  { s with liveBuffers := s.liveBuffers.erase pdata }

/-- One acquire/release cycle: a callee-allocated acquisition followed, when it
succeeds, by exactly one release of the returned buffer handle (the header's
example usage). -/
def acquireReleaseCycle (d : Driver) (area_t area_l area_b area_r nBinning : Int)
    (fExposure : Rat) (bShowInDM : Bool) (s : CState) : CState :=
  match acquireImageNewFloat d s area_t area_l area_b area_r nBinning fExposure bShowInDM with
  | (_, some out, s1) => CCDCOM2_release s1 out.handle
  | (_, none, s1) => s1

theorem acquireReleaseCycle_preserves (d : Driver)
    (area_t area_l area_b area_r nBinning : Int) (fExposure : Rat) (bShowInDM : Bool)
    (s : CState) :
    (acquireReleaseCycle d area_t area_l area_b area_r nBinning fExposure bShowInDM s).liveBuffers
        = s.liveBuffers ∧
    (acquireReleaseCycle d area_t area_l area_b area_r nBinning fExposure bShowInDM s).session
        = s.session := by
  unfold acquireReleaseCycle acquireImageNewFloat CCDCOM2_release
  by_cases hs : s.session ≠ SessionState.Ready
  · simp [hs]
  · by_cases hv : validRequest d area_t area_l area_b area_r nBinning fExposure = true
    · by_cases hc : d.captureOk = true
      · cases bShowInDM <;> simp [hs, hv, hc]
      · simp [hs, hv, hc]
    · simp [hs, hv]

/-- C1: for every acquisition request and every starting state, repeating the
acquire/release cycle (a `acquireImageNewFloat` call followed, when it
succeeds, by exactly one `CCDCOM2_release` on the returned handle) any number
of times leaves the ledger of outstanding callee-allocated buffers, and the
session, exactly as they started: no buffers or handles leak. -/
theorem acquire_release_no_leak (d : Driver)
    (area_t area_l area_b area_r nBinning : Int) (fExposure : Rat) (bShowInDM : Bool)
    (s : CState) (N : Nat) :
    ((acquireReleaseCycle d area_t area_l area_b area_r nBinning fExposure bShowInDM)^[N] s).liveBuffers
        = s.liveBuffers ∧
    ((acquireReleaseCycle d area_t area_l area_b area_r nBinning fExposure bShowInDM)^[N] s).session
        = s.session := by
  induction N generalizing s with
  | zero => simp
  | succ n ih =>
    rw [Function.iterate_succ_apply]
    obtain ⟨h1, h2⟩ :=
      ih (acquireReleaseCycle d area_t area_l area_b area_r nBinning fExposure bShowInDM s)
    obtain ⟨g1, g2⟩ :=
      acquireReleaseCycle_preserves d area_t area_l area_b area_r nBinning fExposure bShowInDM s
    exact ⟨h1.trans g1, h2.trans g2⟩

/-- A concrete driver instance (a test double) used to exercise the model on
closed inputs: an 8×8 sensor, a working connection and exposure pipeline, and
simple deterministic frame/script responses. -/
def testDriver : Driver where
  magic := 20120101
  connectOk := true
  infoAvailable := true
  name := [67, 67, 68]
  count := 1
  sensorWidth := 8
  sensorHeight := 8
  scriptResult := fun w => (w.length : Int)
  captureOk := true
  rawFrame := fun _ _ _ _ _ _ => [7, 9]
  convert := fun x => x + 1

/-- A concrete state with an open, Ready session and no outstanding buffers. -/
def readyState : CState where
  session := SessionState.Ready
  nextHandle := 0
  liveBuffers := []
  driverCalls := 0
  displayRequests := 0
  scriptLog := []

/-- A concrete state before any session has been opened. -/
def uninitState : CState where
  session := SessionState.Uninitialized
  nextHandle := 0
  liveBuffers := []
  driverCalls := 0
  displayRequests := 0
  scriptLog := []

/-- C2: for every ROI and binning factor dividing both extents evenly, a
successful `acquireImageNewInt` call reports output width
(right-left)/binning and output height (bottom-top)/binning, exactly
(integer division, exact under the divisibility hypotheses). -/
theorem acquireInt_output_dims (d : Driver) (s : CState)
    (area_t area_l area_b area_r nBinning : Int) (fExposure : Rat) (bShowInDM : Bool)
    (st : Int) (out : IntAcqOut) (s' : CState)
    (hW : nBinning ∣ (area_r - area_l)) (hH : nBinning ∣ (area_b - area_t))
    (h : acquireImageNewInt d s area_t area_l area_b area_r nBinning fExposure bShowInDM
        = (st, some out, s')) :
    out.width = (area_r - area_l) / nBinning ∧
    out.height = (area_b - area_t) / nBinning ∧
    out.width * nBinning = area_r - area_l ∧
    out.height * nBinning = area_b - area_t := by
  unfold acquireImageNewInt at h
  by_cases hs : s.session ≠ SessionState.Ready
  · simp [hs] at h
  · rw [if_neg hs] at h
    by_cases hv : validRequest d area_t area_l area_b area_r nBinning fExposure = true
    · rw [if_pos hv] at h
      by_cases hc : d.captureOk = true
      · rw [if_pos hc] at h
        simp only [Prod.mk.injEq, Option.some.injEq] at h
        obtain ⟨-, hout, -⟩ := h
        subst hout
        exact ⟨rfl, rfl, Int.ediv_mul_cancel hW, Int.ediv_mul_cancel hH⟩
      · simp [hc] at h
    · simp [hv] at h

/-- Witness for C2: a concrete successful acquisition on the test driver with
ROI (0,0,8,8) and binning 2 reports a 4×4 output. -/
theorem acquireInt_output_dims_witness :
    (2:Int) ∣ ((8:Int) - 0) ∧ (2:Int) ∣ ((8:Int) - 0) ∧
    ((IntAcqOut.mk [7, 9] 4 4).width = ((8:Int) - 0) / 2 ∧
     (IntAcqOut.mk [7, 9] 4 4).height = ((8:Int) - 0) / 2 ∧
     (IntAcqOut.mk [7, 9] 4 4).width * 2 = (8:Int) - 0 ∧
     (IntAcqOut.mk [7, 9] 4 4).height * 2 = (8:Int) - 0) :=
  ⟨by decide, by decide,
    acquireInt_output_dims testDriver readyState 0 0 8 8 2 1 false STATUS_OK
      (IntAcqOut.mk [7, 9] 4 4) { readyState with driverCalls := 1 }
      (by decide) (by decide) (by decide)⟩

theorem validRequest_eq_true_iff (d : Driver)
    (area_t area_l area_b area_r nBinning : Int) (fExposure : Rat) :
    validRequest d area_t area_l area_b area_r nBinning fExposure = true ↔
      (0 ≤ area_t ∧ area_t < area_b ∧ 0 ≤ area_l ∧ area_l < area_r ∧
       area_b ≤ d.sensorHeight ∧ area_r ≤ d.sensorWidth ∧
       0 < nBinning ∧ 0 < fExposure) := by
  unfold validRequest
  simp [and_assoc]

/-- C3: for every request whose ROI is invalid — any violation of
0 ≤ top < bottom ≤ sensorHeight or 0 ≤ left < right ≤ sensorWidth, which in
particular covers every ROI with right ≤ left — `acquireImageNewFloat`
returns the precondition-failure status, allocates no buffer, leaves the
output parameters unwritten (`none`), and leaves the state unchanged; and on
any failure whatsoever (a non-success status, so also a driver reject or
timeout) the output parameters are not written and no buffer is allocated. -/
theorem acquireFloat_invalid_roi (d : Driver) (s : CState)
    (area_t area_l area_b area_r nBinning : Int) (fExposure : Rat) (bShowInDM : Bool) :
    (¬ (0 ≤ area_t ∧ area_t < area_b ∧ 0 ≤ area_l ∧ area_l < area_r ∧
        area_b ≤ d.sensorHeight ∧ area_r ≤ d.sensorWidth) →
      acquireImageNewFloat d s area_t area_l area_b area_r nBinning fExposure bShowInDM
        = (STATUS_FAIL, none, s)) ∧
    ((acquireImageNewFloat d s area_t area_l area_b area_r nBinning fExposure bShowInDM).1
        ≠ STATUS_OK →
      (acquireImageNewFloat d s area_t area_l area_b area_r nBinning fExposure bShowInDM).2.1
        = none ∧
      (acquireImageNewFloat d s area_t area_l area_b area_r nBinning fExposure bShowInDM).2.2.liveBuffers
        = s.liveBuffers) := by
  constructor
  · intro hroi
    have hv : ¬ validRequest d area_t area_l area_b area_r nBinning fExposure = true := by
      rw [validRequest_eq_true_iff]
      intro hall
      exact hroi ⟨hall.1, hall.2.1, hall.2.2.1, hall.2.2.2.1, hall.2.2.2.2.1,
        hall.2.2.2.2.2.1⟩
    unfold acquireImageNewFloat
    by_cases hs : s.session ≠ SessionState.Ready
    · rw [if_pos hs]
    · rw [if_neg hs, if_neg hv]
  · intro hfail
    unfold acquireImageNewFloat at hfail ⊢
    by_cases hs : s.session ≠ SessionState.Ready
    · simp [hs]
    · by_cases hv : validRequest d area_t area_l area_b area_r nBinning fExposure = true
      · by_cases hc : d.captureOk = true
        · exfalso
          apply hfail
          cases bShowInDM <;> simp [hs, hv, hc]
        · simp [hs, hv, hc]
      · simp [hs, hv]

/-- Witness for C3: on the test driver in the Ready state, the request with
ROI (top 0, left 5, bottom 8, right 2) — right ≤ left — fails with the
precondition status, writes no outputs, and allocates nothing. -/
theorem acquireFloat_invalid_roi_witness :
    (¬ ((0:Int) ≤ 0 ∧ (0:Int) < 8 ∧ (0:Int) ≤ 5 ∧ (5:Int) < 2 ∧
        (8:Int) ≤ testDriver.sensorHeight ∧ (2:Int) ≤ testDriver.sensorWidth) →
      acquireImageNewFloat testDriver readyState 0 5 8 2 1 1 false
        = (STATUS_FAIL, none, readyState)) ∧
    ((acquireImageNewFloat testDriver readyState 0 5 8 2 1 1 false).1 ≠ STATUS_OK →
      (acquireImageNewFloat testDriver readyState 0 5 8 2 1 1 false).2.1 = none ∧
      (acquireImageNewFloat testDriver readyState 0 5 8 2 1 1 false).2.2.liveBuffers
        = readyState.liveBuffers) :=
  acquireFloat_invalid_roi testDriver readyState 0 5 8 2 1 1 false

/-- C4: for every operation other than open/close session — the four metadata
queries, `execScript`, and both acquisition variants — a call made while the
session is not Ready fails with a precondition status and performs no side
effects: the state, including the driver-interaction counter, is returned
unchanged. -/
theorem ops_require_ready (d : Driver) (s : CState) (wcNameSize : Int) (script : WStr)
    (area_t area_l area_b area_r nBinning : Int) (fExposure : Rat) (bShowInDM : Bool)
    (h : s.session ≠ SessionState.Ready) :
    isCameraInfoAvailable d s = (false, s) ∧
    cameraName d s wcNameSize = (none, s) ∧
    cameraDimensions d s = (none, s) ∧
    cameraCount d s = (none, s) ∧
    execScript d s script = (STATUS_FAIL, s) ∧
    acquireImageNewInt d s area_t area_l area_b area_r nBinning fExposure bShowInDM
      = (STATUS_FAIL, none, s) ∧
    acquireImageNewFloat d s area_t area_l area_b area_r nBinning fExposure bShowInDM
      = (STATUS_FAIL, none, s) := by
  refine ⟨?_, ?_, ?_, ?_, ?_, ?_, ?_⟩ <;>
    simp [isCameraInfoAvailable, cameraName, cameraDimensions, cameraCount, execScript,
      acquireImageNewInt, acquireImageNewFloat, h]

/-- Witness for C4: before any session is opened every gated operation fails
on the test driver and leaves the state untouched. -/
theorem ops_require_ready_witness :
    uninitState.session ≠ SessionState.Ready ∧
    (isCameraInfoAvailable testDriver uninitState = (false, uninitState) ∧
     cameraName testDriver uninitState 16 = (none, uninitState) ∧
     cameraDimensions testDriver uninitState = (none, uninitState) ∧
     cameraCount testDriver uninitState = (none, uninitState) ∧
     execScript testDriver uninitState [1, 2] = (STATUS_FAIL, uninitState) ∧
     acquireImageNewInt testDriver uninitState 0 0 8 8 1 1 false
       = (STATUS_FAIL, none, uninitState) ∧
     acquireImageNewFloat testDriver uninitState 0 0 8 8 1 1 false
       = (STATUS_FAIL, none, uninitState)) :=
  ⟨by decide,
    ops_require_ready testDriver uninitState 16 [1, 2] 0 0 8 8 1 1 false (by decide)⟩

/-- C5: the display flag influences nothing returned to the caller: for every
acquisition request, running it with `bShowInDM = true` produces the same
status and identical outputs (pixel data and output dimensions) as running
the same request with `bShowInDM = false`, for both acquisition variants. -/
theorem display_flag_noninterference (d : Driver) (s : CState)
    (area_t area_l area_b area_r nBinning : Int) (fExposure : Rat) :
    (acquireImageNewInt d s area_t area_l area_b area_r nBinning fExposure true).1
      = (acquireImageNewInt d s area_t area_l area_b area_r nBinning fExposure false).1 ∧
    (acquireImageNewInt d s area_t area_l area_b area_r nBinning fExposure true).2.1
      = (acquireImageNewInt d s area_t area_l area_b area_r nBinning fExposure false).2.1 ∧
    (acquireImageNewFloat d s area_t area_l area_b area_r nBinning fExposure true).1
      = (acquireImageNewFloat d s area_t area_l area_b area_r nBinning fExposure false).1 ∧
    (acquireImageNewFloat d s area_t area_l area_b area_r nBinning fExposure true).2.1
      = (acquireImageNewFloat d s area_t area_l area_b area_r nBinning fExposure false).2.1 := by
  by_cases hs : s.session ≠ SessionState.Ready <;>
  by_cases hv : validRequest d area_t area_l area_b area_r nBinning fExposure = true <;>
  by_cases hc : d.captureOk = true <;>
  refine ⟨?_, ?_, ?_, ?_⟩ <;>
  simp [acquireImageNewInt, acquireImageNewFloat, hs, hv, hc]

/-- C6: with the session not yet opened, `initCCDCOM` succeeds if and only if
the caller-supplied version token matches the driver's magic constant and the
driver connection succeeds; on success the session transitions to Ready, and
on a version mismatch or driver error it signals failure via the
distinguished failure result. -/
theorem initCCDCOM_success_iff (d : Driver) (s : CState) (nNumber : Int)
    (h : s.session = SessionState.Uninitialized) :
    ((initCCDCOM d s nNumber).1 = STATUS_OK ↔ nNumber = d.magic ∧ d.connectOk = true) ∧
    ((initCCDCOM d s nNumber).1 = STATUS_OK →
      (initCCDCOM d s nNumber).2.session = SessionState.Ready) ∧
    (¬ (nNumber = d.magic ∧ d.connectOk = true) →
      (initCCDCOM d s nNumber).1 = STATUS_FAIL) := by
  have hs : ¬ s.session = SessionState.Ready := by rw [h]; intro hcon; cases hcon
  unfold initCCDCOM
  rw [if_neg hs]
  by_cases hm : nNumber = d.magic
  · by_cases hc : d.connectOk = true
    · simp [hm, hc, STATUS_OK]
    · simp [hm, hc, STATUS_OK, STATUS_FAIL]
  · simp [hm, STATUS_OK, STATUS_FAIL]

/-- Witness for C6: opening a session on the fresh state with the matching
token 20120101 succeeds and makes the session Ready. -/
theorem initCCDCOM_success_iff_witness :
    uninitState.session = SessionState.Uninitialized ∧
    (((initCCDCOM testDriver uninitState 20120101).1 = STATUS_OK ↔
        (20120101 : Int) = testDriver.magic ∧ testDriver.connectOk = true) ∧
     ((initCCDCOM testDriver uninitState 20120101).1 = STATUS_OK →
        (initCCDCOM testDriver uninitState 20120101).2.session = SessionState.Ready) ∧
     (¬ ((20120101 : Int) = testDriver.magic ∧ testDriver.connectOk = true) →
        (initCCDCOM testDriver uninitState 20120101).1 = STATUS_FAIL)) :=
  ⟨rfl, initCCDCOM_success_iff testDriver uninitState 20120101 rfl⟩

/-- C8: with the session Ready, `execScript` forwards the wide-character
command string verbatim to the vendor runtime — the forwarded log records
exactly the given string, unparsed and unescaped — and returns the vendor
runtime's status code for that exact string unchanged. -/
theorem execScript_passthrough (d : Driver) (s : CState) (script : WStr)
    (h : s.session = SessionState.Ready) :
    execScript d s script =
      (d.scriptResult script,
       { s with driverCalls := s.driverCalls + 1, scriptLog := script :: s.scriptLog }) := by
  unfold execScript
  rw [if_pos h]

/-- Witness for C8: forwarding the two-code-unit command [10, 20] on the test
driver returns that driver's status for exactly that string (its length, 2)
and logs the string verbatim. -/
theorem execScript_passthrough_witness :
    readyState.session = SessionState.Ready ∧
    execScript testDriver readyState [10, 20] =
      (2, { readyState with driverCalls := 1, scriptLog := [[10, 20]] }) :=
  ⟨rfl, execScript_passthrough testDriver readyState [10, 20] rfl⟩

/-- C9: with the session Ready, two consecutive `cameraDimensions` queries
with no state-mutating call between them return identical results; the first
query itself mutates nothing (it returns the state unchanged), so the second
reads the same values. -/
theorem cameraDimensions_stable (d : Driver) (s : CState)
    (h : s.session = SessionState.Ready) :
    (cameraDimensions d s).2 = s ∧
    (cameraDimensions d (cameraDimensions d s).2).1 = (cameraDimensions d s).1 := by
  have h2 : (cameraDimensions d s).2 = s := by
    unfold cameraDimensions
    split <;> rfl
  exact ⟨h2, by rw [h2]⟩

/-- Witness for C9: on the test driver in the Ready state, both consecutive
dimension queries report the same 8×8 sensor and the state is unchanged. -/
theorem cameraDimensions_stable_witness :
    readyState.session = SessionState.Ready ∧
    ((cameraDimensions testDriver readyState).2 = readyState ∧
     (cameraDimensions testDriver (cameraDimensions testDriver readyState).2).1
       = (cameraDimensions testDriver readyState).1) :=
  ⟨rfl, cameraDimensions_stable testDriver readyState rfl⟩

/-- C10: a successful `initCCDCOM` call returns exactly the value 1 (the
header's example documents `result = 1 on successful return`): from the
uninitialized state, with the matching token and a working driver connection,
the call returns precisely `(1, s with session Ready and one driver
interaction)`. -/
theorem initCCDCOM_returns_one (d : Driver) (s : CState) (nNumber : Int)
    (h : s.session = SessionState.Uninitialized)
    (hm : nNumber = d.magic) (hc : d.connectOk = true) :
    initCCDCOM d s nNumber =
      (1, { s with session := SessionState.Ready, driverCalls := s.driverCalls + 1 }) := by
  have hs : ¬ s.session = SessionState.Ready := by rw [h]; intro hcon; cases hcon
  unfold initCCDCOM
  rw [if_neg hs, if_neg (by simp [hm]), if_pos hc]
  rfl

/-- Witness for C10: the header's example call `initCCDCOM(20120101)` on the
fresh state returns exactly 1. -/
theorem initCCDCOM_returns_one_witness :
    uninitState.session = SessionState.Uninitialized ∧
    (20120101 : Int) = testDriver.magic ∧ testDriver.connectOk = true ∧
    initCCDCOM testDriver uninitState 20120101 =
      (1, { uninitState with session := SessionState.Ready, driverCalls := uninitState.driverCalls + 1 }) :=
  ⟨rfl, rfl, rfl, initCCDCOM_returns_one testDriver uninitState 20120101 rfl rfl rfl⟩

end CCDCOM
